import Mathlib

-- Shallow embedding of the ansible-vmware modules (vmware_advanced_setting.py,
-- vmware_service.py, vmware_datetime_config.py, vmware_esxi_facts.py).
-- Mutating reconcilers are modelled as pure functions from the observed host
-- state and the desired state supplied by the caller to the list of mutation calls issued
-- and an outcome: `Except.ok changed` for a normal exit, `Except.error msg`
-- for a `fail_json` or an uncaught Python exception (both terminate the
-- invocation with a failure report and no `changed` verdict).

set_option maxHeartbeats 1000000

-- ===== vmware_advanced_setting.py =====

-- A stored advanced-option value. The Python code dispatches on
-- `type(options[0].value).__name__`, which is long for integers,
-- str for strings, bool for booleans, anything else is unhandled
-- (lines 82-100).
inductive VValue where
  | vlong : Int → VValue
  | vstr : String → VValue
  | vbool : Bool → VValue
  | vother : String → VValue
deriving DecidableEq

-- Type name of a stored value, as `type(...).__name__` yields it.
def VValue.typeName : VValue → String
  | .vlong _ => "long"
  | .vstr _ => "str"
  | .vbool _ => "bool"
  | .vother t => t

-- Decimal digit accumulator for parseLong.
def parseDigits (ds : List Char) : Option Nat :=
  if ds = [] then none
  else ds.foldl (fun acc? c =>
    acc?.bind (fun acc =>
      if c.isDigit then some (acc * 10 + (c.toNat - Char.toNat '0')) else none))
    (some 0)

-- The Python builtin long applied to a decimal string: parses an optionally signed
-- decimal integer, raises ValueError otherwise (modelled as `none`).
def parseLong (s : String) : Option Int :=
  match s.data with
  | [] => none
  | '-' :: ds => (parseDigits ds).map (fun n => -(n : Int))
  | ds => (parseDigits ds).map (fun n => (n : Int))

-- A mutation call issued by the advanced-setting module: UpdateOptions with
-- options[0].value set to the coerced new value (lines 86-87, 91-92, 96-97).
inductive AdvCall where
  | updateOptions : VValue → AdvCall
deriving DecidableEq

-- apply_setting (vmware_advanced_setting.py lines 74-102).
-- `stored` is options[0].value as fetched by QueryOptions; `value` is the
-- caller-supplied string. Branching follows the type name of `stored`:
--  * long  (line 84): compare against long(value); long() raising
--    ValueError aborts the invocation (caught as a generic failure in main).
--  * str   (line 89): compare the strings directly.
--  * bool  (line 94): the code compares `options[0].value != value`, a
--    Python bool against a str, which is never equal, so the branch always
--    updates; the submitted value is the vmodl bool coercion of value, i.e. Python
--    bool() of a string: true iff the string is nonempty.
--  * anything else (line 100): fail_json with Unhandled value type.
def apply_setting (stored : VValue) (value : String) : List AdvCall × Except String Bool :=
  match stored with
  | .vlong n =>
      match parseLong value with
      | none => ([], .error ("invalid literal for long() with base 10: " ++ value))
      | some m =>
          if n ≠ m then ([.updateOptions (.vlong m)], .ok true)
          else ([], .ok false)
  | .vstr s =>
      if s ≠ value then ([.updateOptions (.vstr value)], .ok true)
      else ([], .ok false)
  | .vbool _ =>
      ([.updateOptions (.vbool (value ≠ ""))], .ok true)
  | .vother t => ([], .error ("Unhandled value type " ++ t))

-- Host-side effect of the calls: UpdateOptions stores the submitted value.
def applyAdvCalls (stored : VValue) (calls : List AdvCall) : VValue :=
  calls.foldl (fun _ c => match c with | .updateOptions v => v) stored

-- Option-path normalization (vmware_advanced_setting.py line 118): re.sub
-- with the anchored pattern slash-capture strips exactly one leading slash,
-- then the replace call turns every remaining slash into a dot.

def stripLeadingSlash (cs : List Char) : List Char :=
  match cs with
  | [] => []
  | c :: rest => if c = '/' then rest else c :: rest

def slashToDot (c : Char) : Char :=
  if c = '/' then '.' else c

def normalizeOptionChars (cs : List Char) : List Char :=
  (stripLeadingSlash cs).map slashToDot

def normalizeOption (s : String) : String :=
  ⟨normalizeOptionChars s.data⟩

-- Joining path segments with a separator, to state the normalization claim
-- about slash-form versus dot-form inputs.
def joinSep (sep : Char) : List (List Char) → List Char
  | [] => []
  | [cs] => cs
  | cs :: rest => cs ++ sep :: joinSep sep rest

-- Decidable equality for outcomes, to let concrete claims be settled by decide.
instance {ε α : Type} [DecidableEq ε] [DecidableEq α] : DecidableEq (Except ε α) :=
  fun a b =>
    match a, b with
    | .ok x, .ok y => if h : x = y then .isTrue (by rw [h]) else .isFalse (by simp [h])
    | .error x, .error y => if h : x = y then .isTrue (by rw [h]) else .isFalse (by simp [h])
    | .ok _, .error _ => .isFalse (by simp)
    | .error _, .ok _ => .isFalse (by simp)

-- ===== vmware_service.py =====

-- One entry of host_service_system.serviceInfo.service: key, running flag,
-- activation policy.
structure Service where
  key : String
  running : Bool
  policy : String
deriving DecidableEq

-- Remote calls issued by manage_service (lines 97, 100, 103, 108).
inductive SvcCall where
  | restartService : String → SvcCall
  | startService : String → SvcCall
  | stopService : String → SvcCall
  | updateServicePolicy : String → String → SvcCall
deriving DecidableEq

-- Run-state calls are RestartService/StartService/StopService, as opposed to
-- the policy update.
def SvcCall.isRunState : SvcCall → Bool
  | .updateServicePolicy _ _ => false
  | _ => true

-- The list comprehension over services filtering on s.key == name, followed
-- by taking element 0:
-- the first service whose key equals the name, if any.
def findService (services : List Service) (name : String) : Option Service :=
  (services.filter (fun s => s.key == name)).head?

-- Body of manage_service once the service has been located (lines 96-111):
-- the three-way run-state step, then the independent policy step.
def manageFound (service : Service) (name state policy : String) : List SvcCall × Bool :=
  let s1 : List SvcCall × Bool :=
    if state == "restarted" then ([.restartService name], true)
    else if state == "running" && !service.running then ([.startService name], true)
    else if state == "stopped" && service.running then ([.stopService name], true)
    else ([], false)
  let s2 : List SvcCall × Bool :=
    if policy != service.policy then ([.updateServicePolicy name policy], true)
    else ([], false)
  (s1.1 ++ s2.1, s1.2 || s2.2)

-- manage_service (vmware_service.py lines 80-111). Fails with the
-- service-not-found message before issuing any call when no service matches
-- (lines 90-91); otherwise runs the two reconciliation steps.
def manage_service (services : List Service) (name state policy : String) :
    List SvcCall × Except String Bool :=
  match findService services name with
  | none => ([], .error ("Could not find service " ++ name ++ " to manage"))
  | some service =>
      let r := manageFound service name state policy
      (r.1, .ok r.2)

-- Host-side semantics of one service call: start/restart leave the service
-- running, stop leaves it stopped, UpdateServicePolicy stores the new policy.
def svcCallUpdate (c : SvcCall) (s : Service) : Service :=
  match c with
  | .restartService n => if s.key == n then { s with running := true } else s
  | .startService n => if s.key == n then { s with running := true } else s
  | .stopService n => if s.key == n then { s with running := false } else s
  | .updateServicePolicy n p => if s.key == n then { s with policy := p } else s

def applySvcCall (services : List Service) (c : SvcCall) : List Service :=
  services.map (svcCallUpdate c)

def applySvcCalls (services : List Service) (calls : List SvcCall) : List Service :=
  calls.foldl applySvcCall services

-- ===== vmware_datetime_config.py =====

-- Observed host state read by configure_datetime: the current NTP server
-- list, the service list, the current timezone name, and the set of names
-- QueryAvailableTimeZones reports.
structure HostDateTimeState where
  ntpServers : List String
  services : List Service
  timeZone : String
  validTimeZones : List String
deriving DecidableEq

-- Remote calls issued by configure_datetime: the NTP-config update (line 88),
-- the ntpd service calls (lines 100, 103, 106), and the read-only
-- QueryAvailableTimeZones (line 113).
inductive DtCall where
  | updateNtpConfig : List String → DtCall
  | restartService : String → DtCall
  | startService : String → DtCall
  | stopService : String → DtCall
  | queryTimeZones : DtCall
deriving DecidableEq

-- QueryAvailableTimeZones is a read; everything else mutates host state.
def DtCall.isMutation : DtCall → Bool
  | .queryTimeZones => false
  | _ => true

-- The three-way ntpd run-state step (lines 99-107), identical in shape to
-- the service module step but with the fixed key ntpd.
def ntpdStateStep (ntpd : Service) (ntpd_state : String) : List DtCall × Bool :=
  if ntpd_state == "restarted" then ([.restartService "ntpd"], true)
  else if ntpd_state == "running" && !ntpd.running then ([.startService "ntpd"], true)
  else if ntpd_state == "stopped" && ntpd.running then ([.stopService "ntpd"], true)
  else ([], false)

-- configure_datetime (vmware_datetime_config.py lines 78-122).
--  * Step 1 (lines 84-91): on NTP server list mismatch, submit an NTP-only
--    date-time config.
--  * Step 2 (lines 94-107): the ntpd lookup takes element 0 of the filtered
--    service list and raises IndexError (list index out of range) when no ntpd service
--    exists — after step 1 has already run; otherwise the three-way step.
--  * Step 3 (lines 111-120): the guard at line 112 tests the Python
--    truthiness of timezone and then the mismatch, so the step runs only
--    when the requested timezone is a nonempty string (None and the empty
--    string are falsy and skip the step entirely) that differs from the
--    observed one; then QueryAvailableTimeZones is consulted and an unknown
--    name fails with the Invalid-timezone message. A known name reaches
--    line 118, which references the misspelled attribute
--    vim.HostDataTimeConfig (the real type is HostDateTimeConfig); the attribute
--    lookup raises before any timezone update can be submitted, so this
--    branch errors as well and no timezone update call is ever issued.
def configure_datetime (host : HostDateTimeState) (ntp_servers : List String)
    (ntpd_state : String) (timezone : Option String) :
    List DtCall × Except String Bool :=
  let s1 : List DtCall × Bool :=
    if host.ntpServers ≠ ntp_servers then ([.updateNtpConfig ntp_servers], true)
    else ([], false)
  match findService host.services "ntpd" with
  | none => (s1.1, .error "list index out of range")
  | some ntpd =>
      let s2 := ntpdStateStep ntpd ntpd_state
      match timezone with
      | none => (s1.1 ++ s2.1, .ok (s1.2 || s2.2))
      | some tz =>
          if tz ≠ "" ∧ host.timeZone ≠ tz then
            if (host.validTimeZones.filter (fun t => t == tz)).length < 1 then
              (s1.1 ++ s2.1 ++ [.queryTimeZones], .error "Invalid timezone requested")
            else
              (s1.1 ++ s2.1 ++ [.queryTimeZones],
               .error "AttributeError: HostDataTimeConfig")
          else (s1.1 ++ s2.1, .ok (s1.2 || s2.2))

-- Host-side semantics of one datetime call.
def applyDtCall (host : HostDateTimeState) (c : DtCall) : HostDateTimeState :=
  match c with
  | .updateNtpConfig servers => { host with ntpServers := servers }
  | .restartService n => { host with services := applySvcCall host.services (.restartService n) }
  | .startService n => { host with services := applySvcCall host.services (.startService n) }
  | .stopService n => { host with services := applySvcCall host.services (.stopService n) }
  | .queryTimeZones => host

def applyDtCalls (host : HostDateTimeState) (calls : List DtCall) : HostDateTimeState :=
  calls.foldl applyDtCall host

-- ===== vmware_esxi_facts.py (network facts) =====

-- Physical NIC link speed block (vim.host.PhysicalNic.LinkSpeedDuplex).
-- `none` models a NIC on which accessing nic.linkSpeed.speedMb raises
-- (lines 145-151: some machines do not set nic.linkSpeed usably).
structure LinkSpeed where
  speedMb : Nat
  duplex : Bool
deriving DecidableEq

structure PhysicalNic where
  device : String
  driver : String
  mac : String
  pci : String
  linkSpeed : Option LinkSpeed
deriving DecidableEq

structure IpV6Address where
  ipAddress : String
  prefixLength : Nat
deriving DecidableEq

structure IpV6Config where
  ipV6Address : List IpV6Address
  autoConfigurationEnabled : Bool
  dhcpV6Enabled : Bool
deriving DecidableEq

-- nic.spec.ip: IPv4 fields plus an optional IPv6 block. `ipV6Config = none`
-- models a vnic on which accessing nic.spec.ip.ipV6Config.ipV6Address raises
-- (lines 166-175: no IPv6 configured for this host).
structure IpConfig where
  ipAddress : String
  subnetMask : String
  dhcp : Bool
  ipV6Config : Option IpV6Config
deriving DecidableEq

structure VirtualNicSpec where
  mac : String
  mtu : Nat
  ip : IpConfig
deriving DecidableEq

structure VirtualNic where
  device : String
  portgroup : String
  spec : VirtualNicSpec
deriving DecidableEq

structure PortGroupSpec where
  name : String
  vlanId : Nat
  vswitchName : String
deriving DecidableEq

structure PortGroup where
  key : String
  spec : PortGroupSpec
deriving DecidableEq

structure ProxySwitch where
  key : String
  dvsName : String
  dvsUuid : String
  numPorts : Nat
  configNumPorts : Nat
  numPortsAvailable : Nat
  mtu : Nat
  networkReservationSupported : Bool
deriving DecidableEq

structure VirtualSwitch where
  key : String
  name : String
  numPorts : Nat
  numPortsAvailable : Nat
  mtu : Nat
deriving DecidableEq

-- self.host_system.configManager.networkSystem.networkInfo
structure NetworkInfo where
  pnic : List PhysicalNic
  vnic : List VirtualNic
  portgroup : List PortGroup
  proxySwitch : List ProxySwitch
  vswitch : List VirtualSwitch
deriving DecidableEq

-- Output entry of the pnics map at a device. speed/fullduplex are the optional
-- keys set inside the try block (lines 146-151); absent keys are `none`.
structure PnicFacts where
  driver : String
  mac : String
  pci : String
  speed : Option Nat
  fullduplex : Option Bool
deriving DecidableEq

structure Ipv4Facts where
  address : String
  netmask : String
  dhcp : Bool
deriving DecidableEq

-- The dict key named p-r-e-f-i-x in the source is named prefixLength here.
structure Ipv6Facts where
  address : String
  prefixLength : Nat
  autoconf : Bool
  dhcp : Bool
deriving DecidableEq

-- Output entry of the vnics map at a device; `ipv6 = none` means the ipv6 key
-- is absent (the try block at lines 166-175 raised).
structure VnicFacts where
  portgroup : String
  mac : String
  mtu : Nat
  ipv4 : Ipv4Facts
  ipv6 : Option Ipv6Facts
deriving DecidableEq

structure PortgroupFacts where
  name : String
  vlanId : Nat
  vswitchName : String
deriving DecidableEq

structure ProxySwitchFacts where
  dvsName : String
  dvsUuid : String
  numPorts : Nat
  configNumPorts : Nat
  numPortsAvailable : Nat
  mtu : Nat
  networkReservationSupported : Bool
deriving DecidableEq

structure VswitchFacts where
  name : String
  numPorts : Nat
  numPortsAvailable : Nat
  mtu : Nat
deriving DecidableEq

-- The five sub-maps of facts returned by get_network_facts, as association
-- lists keyed by device name / key (line 132).
structure NetworkFacts where
  pnics : List (String × PnicFacts)
  vnics : List (String × VnicFacts)
  portgroups : List (String × PortgroupFacts)
  vswitch : List (String × VswitchFacts)
  proxySwitch : List (String × ProxySwitchFacts)
deriving DecidableEq

-- One pnic entry (lines 138-151). The try block sets speed and then
-- fullduplex from nic.linkSpeed; when linkSpeed is unusable the first
-- access raises and neither key is set.
def pnicEntry (nic : PhysicalNic) : PnicFacts :=
  { driver := nic.driver
    mac := nic.mac
    pci := nic.pci
    speed := nic.linkSpeed.map (fun l => l.speedMb)
    fullduplex := nic.linkSpeed.map (fun l => l.duplex) }

-- The optional ipv6 sub-dict (lines 166-175): built from ipV6Config and
-- its first address; a missing config or an empty address list raises inside
-- the try block before the key is assigned, so the key stays absent.
def vnicIpv6 (cfg : Option IpV6Config) : Option Ipv6Facts :=
  match cfg with
  | none => none
  | some c =>
      match c.ipV6Address with
      | [] => none
      | a :: _ =>
          some { address := a.ipAddress
                 prefixLength := a.prefixLength
                 autoconf := c.autoConfigurationEnabled
                 dhcp := c.dhcpV6Enabled }

-- One vnic entry (lines 154-175).
def vnicEntry (nic : VirtualNic) : VnicFacts :=
  { portgroup := nic.portgroup
    mac := nic.spec.mac
    mtu := nic.spec.mtu
    ipv4 := { address := nic.spec.ip.ipAddress
              netmask := nic.spec.ip.subnetMask
              dhcp := nic.spec.ip.dhcp }
    ipv6 := vnicIpv6 nic.spec.ip.ipV6Config }

-- get_network_facts (vmware_esxi_facts.py lines 131-199): one pass per
-- category, one entry per NIC/portgroup/switch.
def get_network_facts (ni : NetworkInfo) : NetworkFacts :=
  { pnics := ni.pnic.map (fun n => (n.device, pnicEntry n))
    vnics := ni.vnic.map (fun n => (n.device, vnicEntry n))
    portgroups := ni.portgroup.map (fun p =>
      (p.key, { name := p.spec.name
                vlanId := p.spec.vlanId
                vswitchName := p.spec.vswitchName }))
    vswitch := ni.vswitch.map (fun v =>
      (v.key, { name := v.name
                numPorts := v.numPorts
                numPortsAvailable := v.numPortsAvailable
                mtu := v.mtu }))
    proxySwitch := ni.proxySwitch.map (fun p =>
      (p.key, { dvsName := p.dvsName
                dvsUuid := p.dvsUuid
                numPorts := p.numPorts
                configNumPorts := p.configNumPorts
                numPortsAvailable := p.numPortsAvailable
                mtu := p.mtu
                networkReservationSupported := p.networkReservationSupported })) }

-- Folding a list of service calls over a single service entry; used to track
-- the located service across an invocation.
def foldUpdates (calls : List SvcCall) (s : Service) : Service :=
  calls.foldl (fun a c => svcCallUpdate c a) s

-- ===== Helper lemmas =====

lemma svcCallUpdate_key (c : SvcCall) (s : Service) : (svcCallUpdate c s).key = s.key := by
  cases c <;> simp only [svcCallUpdate] <;> split <;> rfl

lemma findService_map (services : List Service) (name : String) (f : Service → Service)
    (hf : ∀ s, (f s).key = s.key) :
    findService (services.map f) name = (findService services name).map f := by
  unfold findService
  rw [List.filter_map f services]
  have hcomp : ((fun s => s.key == name) ∘ f) = (fun s : Service => s.key == name) := by
    funext s
    simp [hf s]
  rw [hcomp, List.head?_map]

lemma findService_applySvcCall (services : List Service) (c : SvcCall) (name : String) :
    findService (applySvcCall services c) name
      = (findService services name).map (svcCallUpdate c) := by
  unfold applySvcCall
  exact findService_map services name (svcCallUpdate c) (svcCallUpdate_key c)

lemma findService_applySvcCalls (services : List Service) (calls : List SvcCall) (name : String) :
    findService (applySvcCalls services calls) name
      = (findService services name).map (foldUpdates calls) := by
  induction calls generalizing services with
  | nil =>
      cases hf : findService services name <;> simp [applySvcCalls, foldUpdates, hf]
  | cons c cs ih =>
      have hstep : applySvcCalls services (c :: cs) = applySvcCalls (applySvcCall services c) cs := rfl
      rw [hstep, ih, findService_applySvcCall]
      cases hf : findService services name <;> simp [foldUpdates]

lemma findService_key {services : List Service} {name : String} {s : Service}
    (h : findService services name = some s) : s.key = name := by
  have hm : s ∈ services.filter (fun x => x.key == name) :=
    List.mem_of_mem_head? (Option.mem_def.mpr h)
  have := (List.mem_filter.mp hm).2
  simpa using this

lemma manage_service_found {services : List Service} {name : String} {s : Service}
    (h : findService services name = some s) (state policy : String) :
    manage_service services name state policy
      = ((manageFound s name state policy).1, .ok (manageFound s name state policy).2) := by
  unfold manage_service
  rw [h]

lemma manage_service_notFound {services : List Service} {name : String}
    (h : findService services name = none) (state policy : String) :
    manage_service services name state policy
      = ([], .error ("Could not find service " ++ name ++ " to manage")) := by
  unfold manage_service
  rw [h]

lemma service_idempotent (services : List Service) (name state policy : String) (c : Bool)
    (hstate : state = "running" ∨ state = "stopped")
    (hok : (manage_service services name state policy).2 = .ok c) :
    (manage_service
        (applySvcCalls services (manage_service services name state policy).1)
        name state policy).2 = .ok false := by
  cases hf : findService services name with
  | none =>
      rw [manage_service_notFound hf] at hok
      simp at hok
  | some s =>
      have hkey : s.key = name := findService_key hf
      rw [manage_service_found hf]
      have hf2 : findService (applySvcCalls services (manageFound s name state policy).1) name
          = some (foldUpdates (manageFound s name state policy).1 s) := by
        rw [findService_applySvcCalls, hf]
        rfl
      rw [manage_service_found hf2]
      obtain ⟨k, r, p⟩ := s
      have hk : k = name := hkey
      subst hk
      rcases hstate with rfl | rfl <;>
        cases r <;>
        by_cases hp : policy = p <;>
        simp [manageFound, foldUpdates, svcCallUpdate, hp]

lemma advanced_idempotent (stored : VValue) (value : String) (c : Bool)
    (hnb : ∀ b, stored ≠ .vbool b)
    (hok : (apply_setting stored value).2 = .ok c) :
    (apply_setting (applyAdvCalls stored (apply_setting stored value).1) value).2
      = .ok false := by
  cases stored with
  | vlong n =>
      cases hpl : parseLong value with
      | none => simp [apply_setting, hpl] at hok
      | some m =>
          by_cases hnm : n = m <;> simp [apply_setting, hpl, applyAdvCalls, hnm]
  | vstr s =>
      by_cases hs : s = value <;> simp [apply_setting, applyAdvCalls, hs]
  | vbool b => exact absurd rfl (hnb b)
  | vother t => simp [apply_setting] at hok

lemma datetime_idempotent (host : HostDateTimeState) (ntp_servers : List String)
    (ntpd_state : String) (timezone : Option String) (c : Bool)
    (hstate : ntpd_state = "running" ∨ ntpd_state = "stopped")
    (hok : (configure_datetime host ntp_servers ntpd_state timezone).2 = .ok c) :
    (configure_datetime
        (applyDtCalls host (configure_datetime host ntp_servers ntpd_state timezone).1)
        ntp_servers ntpd_state timezone).2 = .ok false := by
  obtain ⟨ns, svcs, tzc, vtz⟩ := host
  cases hf : findService svcs "ntpd" with
  | none =>
      by_cases hntp : ns = ntp_servers <;>
        simp [configure_datetime, hf, hntp] at hok
  | some ntpd =>
      obtain ⟨k, r, p⟩ := ntpd
      have hkey : k = "ntpd" := findService_key hf
      subst hkey
      cases timezone with
      | none =>
          rcases hstate with rfl | rfl <;>
            by_cases hntp : ns = ntp_servers <;>
            cases r <;>
            simp [configure_datetime, hf, hntp, ntpdStateStep, applyDtCalls, applyDtCall,
              findService_applySvcCall, svcCallUpdate]
      | some tz =>
          by_cases hg : tz ≠ "" ∧ tzc ≠ tz
          case pos =>
            by_cases hval : (vtz.filter (fun t => t == tz)).length < 1 <;>
              simp [configure_datetime, hf, hg, hval] at hok
          case neg =>
            rcases hstate with rfl | rfl <;>
              by_cases hntp : ns = ntp_servers <;>
              cases r <;>
              simp [configure_datetime, hf, hg, hntp, ntpdStateStep, applyDtCalls, applyDtCall,
                findService_applySvcCall, svcCallUpdate]

lemma map_slashToDot_of_no_slash {cs : List Char} (h : '/' ∉ cs) :
    cs.map slashToDot = cs := by
  induction cs with
  | nil => rfl
  | cons c rest ih =>
      simp only [List.mem_cons, not_or] at h
      simp [slashToDot, ih h.2, Ne.symm h.1]

lemma map_slashToDot_joinSep (segs : List (List Char)) (h : ∀ cs ∈ segs, '/' ∉ cs) :
    (joinSep '/' segs).map slashToDot = joinSep '.' segs := by
  induction segs with
  | nil => rfl
  | cons a t ih =>
      cases t with
      | nil => simpa [joinSep] using map_slashToDot_of_no_slash (h a (by simp))
      | cons b t2 =>
          have ha : '/' ∉ a := h a (by simp)
          have ht : ∀ cs ∈ b :: t2, '/' ∉ cs := fun cs hc => h cs (List.mem_cons_of_mem _ hc)
          simp [joinSep, map_slashToDot_of_no_slash ha, slashToDot, ih ht]

lemma no_slash_joinSep_dot (segs : List (List Char)) (h : ∀ cs ∈ segs, '/' ∉ cs) :
    '/' ∉ joinSep '.' segs := by
  induction segs with
  | nil => simp [joinSep]
  | cons a t ih =>
      cases t with
      | nil => simpa [joinSep] using h a (by simp)
      | cons b t2 =>
          have ha : '/' ∉ a := h a (by simp)
          have ht : ∀ cs ∈ b :: t2, '/' ∉ cs := fun cs hc => h cs (List.mem_cons_of_mem _ hc)
          simp [joinSep, ha, ih ht]

lemma stripLeadingSlash_of_no_slash {cs : List Char} (h : '/' ∉ cs) :
    stripLeadingSlash cs = cs := by
  cases cs with
  | nil => rfl
  | cons c rest =>
      simp only [List.mem_cons, not_or] at h
      simp [stripLeadingSlash, Ne.symm h.1]

-- ===== Claim theorems =====

/-- C1 counterexample: with desired state restarted, the service reconciler
issues a restart and reports changed=true on every invocation, so the second
invocation on the unchanged (post-first-run) host state again yields
changed=true, not changed=false as the claim requires. -/
theorem c1_restarted_not_idempotent :
    (manage_service [⟨"TSM-SSH", true, "on"⟩] "TSM-SSH" "restarted" "on").2 = .ok true
    ∧ (manage_service
        (applySvcCalls [⟨"TSM-SSH", true, "on"⟩]
          (manage_service [⟨"TSM-SSH", true, "on"⟩] "TSM-SSH" "restarted" "on").1)
        "TSM-SSH" "restarted" "on").2 = .ok true
    ∧ (manage_service
        (applySvcCalls [⟨"TSM-SSH", true, "on"⟩]
          (manage_service [⟨"TSM-SSH", true, "on"⟩] "TSM-SSH" "restarted" "on").1)
        "TSM-SSH" "restarted" "on").2 ≠ .ok false := by
  refine ⟨by decide, by decide, by decide⟩

/-- C1 (amended): running any of the three reconcilers twice with the same
desired state and no external drift yields changed=false on the second
invocation, provided the desired run-state is running or stopped (restarted
always restarts and always reports a change) and, for the advanced-setting
reconciler, the stored option value is not boolean-typed (the boolean branch
compares a bool against the raw string, which never matches). Succeeding on
the first invocation is required: the datetime reconciler errors out on any
timezone change, and error exits carry no changed verdict. -/
theorem c1_idempotent_amended :
    (∀ (services : List Service) (name state policy : String) (c : Bool),
        (state = "running" ∨ state = "stopped") →
        (manage_service services name state policy).2 = .ok c →
        (manage_service
            (applySvcCalls services (manage_service services name state policy).1)
            name state policy).2 = .ok false)
  ∧ (∀ (stored : VValue) (value : String) (c : Bool),
        (∀ b, stored ≠ VValue.vbool b) →
        (apply_setting stored value).2 = .ok c →
        (apply_setting (applyAdvCalls stored (apply_setting stored value).1) value).2
          = .ok false)
  ∧ (∀ (host : HostDateTimeState) (ntp_servers : List String) (ntpd_state : String)
        (timezone : Option String) (c : Bool),
        (ntpd_state = "running" ∨ ntpd_state = "stopped") →
        (configure_datetime host ntp_servers ntpd_state timezone).2 = .ok c →
        (configure_datetime
            (applyDtCalls host (configure_datetime host ntp_servers ntpd_state timezone).1)
            ntp_servers ntpd_state timezone).2 = .ok false) :=
  ⟨service_idempotent, advanced_idempotent, datetime_idempotent⟩

/-- C1 witness: the service reconciler started a stopped service on the first
run (changed=true) and reports changed=false on the second. -/
theorem c1_idempotent_amended_witness :
    (("running" : String) = "running" ∨ ("running" : String) = "stopped")
    ∧ (manage_service [⟨"TSM-SSH", false, "off"⟩] "TSM-SSH" "running" "on").2 = .ok true
    ∧ (manage_service
        (applySvcCalls [⟨"TSM-SSH", false, "off"⟩]
          (manage_service [⟨"TSM-SSH", false, "off"⟩] "TSM-SSH" "running" "on").1)
        "TSM-SSH" "running" "on").2 = .ok false :=
  ⟨Or.inl rfl, by decide,
   c1_idempotent_amended.1 [⟨"TSM-SSH", false, "off"⟩] "TSM-SSH" "running" "on" true
     (Or.inl rfl) (by decide)⟩

/-- C2: for a stored integer 5, the supplied string five issues no update and
reports changed=false, while the supplied string six issues exactly one
UpdateOptions call carrying the integer 6 and reports changed=true. -/
theorem c2_integer_coercion :
    apply_setting (VValue.vlong 5) "5" = ([], Except.ok false)
    ∧ apply_setting (VValue.vlong 5) "6"
      = ([AdvCall.updateOptions (VValue.vlong 6)], Except.ok true) := by
  refine ⟨by decide, by decide⟩

/-- C3 (code bug): for a stored boolean true and a supplied string denoting
the same boolean, the code compares the bool against the raw string (never
equal in Python), so it issues an UpdateOptions call and reports changed=true
instead of the claimed changed=false with no update call. -/
theorem c3_bool_comparison_bug :
    apply_setting (VValue.vbool true) "True"
      = ([AdvCall.updateOptions (VValue.vbool true)], Except.ok true)
    ∧ (apply_setting (VValue.vbool true) "True").2 ≠ Except.ok false := by
  refine ⟨by decide, by decide⟩

/-- C4: option-path normalization strips one leading slash and replaces every
remaining slash with a dot, so for any path given as slash-free segments the
slash-delimited input with a leading slash and the dot-delimited input
normalize to the identical lookup key; in particular the two spellings of
UserVars.SuppressShellWarning agree. -/
theorem c4_option_path_normalization (segs : List (List Char))
    (h : ∀ cs ∈ segs, '/' ∉ cs) :
    normalizeOption ⟨'/' :: joinSep '/' segs⟩ = normalizeOption ⟨joinSep '.' segs⟩
    ∧ normalizeOption "/UserVars/SuppressShellWarning"
        = normalizeOption "UserVars.SuppressShellWarning" := by
  constructor
  · have hns : '/' ∉ joinSep '.' segs := no_slash_joinSep_dot segs h
    unfold normalizeOption normalizeOptionChars
    congr 1
    rw [show stripLeadingSlash ('/' :: joinSep '/' segs) = joinSep '/' segs from by
          simp [stripLeadingSlash]]
    rw [stripLeadingSlash_of_no_slash hns]
    rw [map_slashToDot_joinSep segs h, map_slashToDot_of_no_slash hns]
  · decide

/-- C4 witness: instantiated at the two-segment path of the claim. -/
theorem c4_option_path_normalization_witness :
    (∀ cs ∈ [("UserVars").data, ("SuppressShellWarning").data], '/' ∉ cs)
    ∧ normalizeOption ⟨'/' :: joinSep '/' [("UserVars").data, ("SuppressShellWarning").data]⟩
        = normalizeOption ⟨joinSep '.' [("UserVars").data, ("SuppressShellWarning").data]⟩ :=
  ⟨by decide,
   (c4_option_path_normalization [("UserVars").data, ("SuppressShellWarning").data]
     (by decide)).1⟩

/-- C5: with the named service present: observed running and desired stopped
issues exactly one stop call and reports changed=true; observed running and
desired running issues zero run-state calls and, with matching policy,
reports changed=false with no calls at all; desired restarted issues exactly
one restart call and reports changed=true regardless of the observed state. -/
theorem c5_service_three_way (services : List Service) (name policy : String)
    (s : Service) (h : findService services name = some s) :
    (s.running = true →
      ((manage_service services name "stopped" policy).1.count (SvcCall.stopService name) = 1
        ∧ (manage_service services name "stopped" policy).2 = .ok true))
  ∧ (s.running = true →
      ((manage_service services name "running" policy).1.filter (fun c => c.isRunState) = []
        ∧ (policy = s.policy → manage_service services name "running" policy = ([], .ok false))))
  ∧ ((manage_service services name "restarted" policy).1.count (SvcCall.restartService name) = 1
      ∧ (manage_service services name "restarted" policy).2 = .ok true) := by
  simp only [manage_service_found h]
  obtain ⟨k, r, p⟩ := s
  refine ⟨?_, ?_, ?_⟩ <;>
    first
      | (intro hr
         subst hr
         by_cases hp : policy = p <;>
           simp [manageFound, hp, SvcCall.isRunState])
      | (by_cases hp : policy = p <;> simp [manageFound, hp])

/-- C5 witness: instantiated at a single running service with matching
policy; the restarted clause is extracted. -/
theorem c5_service_three_way_witness :
    findService [⟨"TSM-SSH", true, "on"⟩] "TSM-SSH" = some ⟨"TSM-SSH", true, "on"⟩
    ∧ ((manage_service [⟨"TSM-SSH", true, "on"⟩] "TSM-SSH" "restarted" "on").1.count
        (SvcCall.restartService "TSM-SSH") = 1
      ∧ (manage_service [⟨"TSM-SSH", true, "on"⟩] "TSM-SSH" "restarted" "on").2 = .ok true) :=
  ⟨by decide,
   (c5_service_three_way [⟨"TSM-SSH", true, "on"⟩] "TSM-SSH" "on" ⟨"TSM-SSH", true, "on"⟩
     (by decide)).2.2⟩

/-- C6: when no service in the host list has the given name as its key, the
service reconciler fails with the service-not-found message and issues no
call whatsoever (in particular no run-state call and no policy update): the
existence check precedes every mutation. -/
theorem c6_service_not_found (services : List Service) (name state policy : String)
    (h : ∀ s ∈ services, s.key ≠ name) :
    manage_service services name state policy
      = ([], .error ("Could not find service " ++ name ++ " to manage")) := by
  have hf : findService services name = none := by
    unfold findService
    rw [List.filter_eq_nil_iff.mpr (fun s hs => by simpa using h s hs)]
    rfl
  exact manage_service_notFound hf state policy

/-- C6 witness: a host with only an unrelated service. -/
theorem c6_service_not_found_witness :
    (∀ s ∈ [(⟨"vpxa", true, "on"⟩ : Service)], s.key ≠ "TSM-SSH")
    ∧ manage_service [⟨"vpxa", true, "on"⟩] "TSM-SSH" "running" "on"
        = ([], .error ("Could not find service " ++ "TSM-SSH" ++ " to manage")) :=
  ⟨by decide,
   c6_service_not_found [⟨"vpxa", true, "on"⟩] "TSM-SSH" "running" "on" (by decide)⟩

/-- C7 counterexample: when the desired NTP server list also differs from the
observed one, the invalid-timezone failure is preceded by an NTP-config
mutation call, so the invocation does not issue zero mutation calls as the
claim states. -/
theorem c7_prior_drift_mutates :
    configure_datetime
        { ntpServers := ["ntp-001.example.com"]
          services := [⟨"ntpd", true, "on"⟩]
          timeZone := "UTC"
          validTimeZones := ["UTC"] }
        ["ntp-002.example.com"] "running" (some "Mars/Olympus")
      = ([DtCall.updateNtpConfig ["ntp-002.example.com"], DtCall.queryTimeZones],
         Except.error "Invalid timezone requested")
    ∧ (DtCall.updateNtpConfig ["ntp-002.example.com"]).isMutation = true := by
  refine ⟨by decide, by decide⟩

/-- C7 (amended): when the requested timezone is nonempty (a timezone is
actually requested: line 112 tests Python truthiness first, so None and the
empty string skip the step), differs from the observed one and is absent
from the valid-timezone list, the invocation fails with the
invalid-timezone error; it issues zero mutation calls provided the earlier
steps found nothing to change (NTP servers already equal, ntpd already in the
desired running or stopped state) - only the read-only
QueryAvailableTimeZones is in the trace. Moreover the valid-timezone check
runs only on mismatch: when the requested timezone equals the observed one,
QueryAvailableTimeZones is never called. -/
theorem c7_invalid_timezone_amended :
    (∀ (host : HostDateTimeState) (ntp_servers : List String) (ntpd_state tz : String)
        (ntpd : Service),
      host.ntpServers = ntp_servers →
      findService host.services "ntpd" = some ntpd →
      ((ntpd_state = "running" ∧ ntpd.running = true)
        ∨ (ntpd_state = "stopped" ∧ ntpd.running = false)) →
      tz ≠ "" →
      host.timeZone ≠ tz →
      tz ∉ host.validTimeZones →
      configure_datetime host ntp_servers ntpd_state (some tz)
        = ([DtCall.queryTimeZones], .error "Invalid timezone requested"))
  ∧ (∀ (host : HostDateTimeState) (ntp_servers : List String) (ntpd_state : String),
      DtCall.queryTimeZones ∉
        (configure_datetime host ntp_servers ntpd_state (some host.timeZone)).1) := by
  constructor
  · intro host ntp_servers ntpd_state tz ntpd hntp hf hstate htz0 htz hval
    have hfil : host.validTimeZones.filter (fun t => t == tz) = [] :=
      List.filter_eq_nil_iff.mpr (fun t ht => by
        simp only [beq_iff_eq]
        intro he
        exact hval (he ▸ ht))
    rcases hstate with ⟨rfl, hr⟩ | ⟨rfl, hr⟩ <;>
      simp [configure_datetime, hf, hntp, htz0, htz, hfil, ntpdStateStep, hr]
  · intro host ntp_servers ntpd_state
    cases hf : findService host.services "ntpd" with
    | none =>
        by_cases hntp : host.ntpServers = ntp_servers <;>
          simp [configure_datetime, hf, hntp]
    | some ntpd =>
        have h2 : DtCall.queryTimeZones ∉ (ntpdStateStep ntpd ntpd_state).1 := by
          unfold ntpdStateStep
          split
          · simp
          · split
            · simp
            · split <;> simp
        by_cases hntp : host.ntpServers = ntp_servers <;>
          simp [configure_datetime, hf, hntp] <;>
          exact h2

/-- C7 witness: a drift-free host asked for an unknown timezone fails with
only the read-only query in the trace. -/
theorem c7_invalid_timezone_amended_witness :
    (("Mars/Olympus" : String) ≠ "")
    ∧ ("Mars/Olympus" ∉ ["UTC"])
    ∧ configure_datetime
        { ntpServers := ["ntp-001.example.com"]
          services := [⟨"ntpd", true, "on"⟩]
          timeZone := "UTC"
          validTimeZones := ["UTC"] }
        ["ntp-001.example.com"] "running" (some "Mars/Olympus")
      = ([DtCall.queryTimeZones], Except.error "Invalid timezone requested") :=
  ⟨by decide, by decide,
   c7_invalid_timezone_amended.1
     { ntpServers := ["ntp-001.example.com"]
       services := [⟨"ntpd", true, "on"⟩]
       timeZone := "UTC"
       validTimeZones := ["UTC"] }
     ["ntp-001.example.com"] "running" "Mars/Olympus" ⟨"ntpd", true, "on"⟩
     rfl (by decide) (Or.inl ⟨rfl, rfl⟩) (by decide) (by decide) (by decide)⟩

/-- C8 (code bug): with a requested timezone that differs from the observed
one and is present in the valid list, line 118 references the misspelled
attribute vim.HostDataTimeConfig, so the invocation raises an AttributeError
(surfaced as a generic failure) instead of submitting the timezone-only
configuration and reporting changed=true; no timezone update call is ever
issued. -/
theorem c8_timezone_update_typo :
    configure_datetime
        { ntpServers := ["ntp-001.example.com"]
          services := [⟨"ntpd", true, "on"⟩]
          timeZone := "UTC"
          validTimeZones := ["UTC", "Europe/Amsterdam"] }
        ["ntp-001.example.com"] "running" (some "Europe/Amsterdam")
      = ([DtCall.queryTimeZones], Except.error "AttributeError: HostDataTimeConfig") := by
  decide

/-- C9: a virtual NIC whose IPv6 configuration is absent still appears in the
vnics map with portgroup, MAC, MTU and IPv4 fields populated and no ipv6
entry; a physical NIC whose link-speed data is absent still appears in the
pnics map without speed or duplex entries; and every NIC and every other
category is extracted in full regardless (one output entry per input
element). -/
theorem c9_fact_isolation (ni : NetworkInfo) :
    (∀ nic ∈ ni.vnic, nic.spec.ip.ipV6Config = none →
      (nic.device,
        ({ portgroup := nic.portgroup
           mac := nic.spec.mac
           mtu := nic.spec.mtu
           ipv4 := { address := nic.spec.ip.ipAddress
                     netmask := nic.spec.ip.subnetMask
                     dhcp := nic.spec.ip.dhcp }
           ipv6 := none } : VnicFacts)) ∈ (get_network_facts ni).vnics)
  ∧ (∀ nic ∈ ni.pnic, nic.linkSpeed = none →
      (nic.device,
        ({ driver := nic.driver
           mac := nic.mac
           pci := nic.pci
           speed := none
           fullduplex := none } : PnicFacts)) ∈ (get_network_facts ni).pnics)
  ∧ (get_network_facts ni).vnics.length = ni.vnic.length
  ∧ (get_network_facts ni).pnics.length = ni.pnic.length
  ∧ (get_network_facts ni).portgroups.length = ni.portgroup.length
  ∧ (get_network_facts ni).vswitch.length = ni.vswitch.length
  ∧ (get_network_facts ni).proxySwitch.length = ni.proxySwitch.length := by
  refine ⟨?_, ?_, by simp [get_network_facts], by simp [get_network_facts],
    by simp [get_network_facts], by simp [get_network_facts], by simp [get_network_facts]⟩
  · intro nic hm hnone
    simp only [get_network_facts, List.mem_map]
    exact ⟨nic, hm, by simp [vnicEntry, vnicIpv6, hnone]⟩
  · intro nic hm hnone
    simp only [get_network_facts, List.mem_map]
    exact ⟨nic, hm, by simp [pnicEntry, hnone]⟩

/-- C9 witness: a host with one IPv6-less vnic and one pnic without usable
link-speed data; both appear in the facts with the optional fields absent. -/
theorem c9_fact_isolation_witness :
    (({ device := "vmk0"
        portgroup := "Management Network"
        spec := { mac := "00:50:56:aa:bb:cc"
                  mtu := 1500
                  ip := { ipAddress := "10.0.0.2"
                          subnetMask := "255.255.255.0"
                          dhcp := false
                          ipV6Config := none } } } : VirtualNic).spec.ip.ipV6Config = none)
    ∧ ("vmk0",
        ({ portgroup := "Management Network"
           mac := "00:50:56:aa:bb:cc"
           mtu := 1500
           ipv4 := { address := "10.0.0.2"
                     netmask := "255.255.255.0"
                     dhcp := false }
           ipv6 := none } : VnicFacts)) ∈
        (get_network_facts
          { pnic := [{ device := "vmnic0"
                       driver := "ixgbe"
                       mac := "00:50:56:aa:bb:cd"
                       pci := "0000:01:00.0"
                       linkSpeed := none }]
            vnic := [{ device := "vmk0"
                       portgroup := "Management Network"
                       spec := { mac := "00:50:56:aa:bb:cc"
                                 mtu := 1500
                                 ip := { ipAddress := "10.0.0.2"
                                         subnetMask := "255.255.255.0"
                                         dhcp := false
                                         ipV6Config := none } } }]
            portgroup := []
            proxySwitch := []
            vswitch := [] }).vnics :=
  ⟨rfl,
   (c9_fact_isolation
     { pnic := [{ device := "vmnic0"
                  driver := "ixgbe"
                  mac := "00:50:56:aa:bb:cd"
                  pci := "0000:01:00.0"
                  linkSpeed := none }]
       vnic := [{ device := "vmk0"
                  portgroup := "Management Network"
                  spec := { mac := "00:50:56:aa:bb:cc"
                            mtu := 1500
                            ip := { ipAddress := "10.0.0.2"
                                    subnetMask := "255.255.255.0"
                                    dhcp := false
                                    ipV6Config := none } } }]
       portgroup := []
       proxySwitch := []
       vswitch := [] }).1
     { device := "vmk0"
       portgroup := "Management Network"
       spec := { mac := "00:50:56:aa:bb:cc"
                 mtu := 1500
                 ip := { ipAddress := "10.0.0.2"
                         subnetMask := "255.255.255.0"
                         dhcp := false
                         ipV6Config := none } } }
     (by simp) rfl⟩

/-- C10: when the host has no ntpd service, the datetime reconciler raises
IndexError (surfaced as a generic failure) only after step 1, so a desired
NTP server list that differs from the observed one has already produced the
NTP-config mutation call before the failure, and the invocation ends in an
error with no changed verdict. -/
theorem c10_ntpd_missing_after_ntp_update (host : HostDateTimeState)
    (ntp_servers : List String) (ntpd_state : String) (timezone : Option String)
    (hno : ∀ s ∈ host.services, s.key ≠ "ntpd")
    (hdiff : host.ntpServers ≠ ntp_servers) :
    configure_datetime host ntp_servers ntpd_state timezone
      = ([DtCall.updateNtpConfig ntp_servers], .error "list index out of range") := by
  have hf : findService host.services "ntpd" = none := by
    unfold findService
    rw [List.filter_eq_nil_iff.mpr (fun s hs => by simpa using hno s hs)]
    rfl
  simp [configure_datetime, hf, hdiff]

/-- C10 witness: a host without ntpd and with drifted NTP servers. -/
theorem c10_ntpd_missing_after_ntp_update_witness :
    ((["ntp-001.example.com"] : List String) ≠ ["ntp-002.example.com"])
    ∧ configure_datetime
        { ntpServers := ["ntp-001.example.com"]
          services := [⟨"vpxa", true, "on"⟩]
          timeZone := "UTC"
          validTimeZones := ["UTC"] }
        ["ntp-002.example.com"] "running" none
      = ([DtCall.updateNtpConfig ["ntp-002.example.com"]], .error "list index out of range") :=
  ⟨by decide,
   c10_ntpd_missing_after_ntp_update
     { ntpServers := ["ntp-001.example.com"]
       services := [⟨"vpxa", true, "on"⟩]
       timeZone := "UTC"
       validTimeZones := ["UTC"] }
     ["ntp-002.example.com"] "running" none (by decide) (by decide)⟩
